import Mathlib

/-!
Verification of the appointment conflict-detection and booking workflow of the
kreativdentalmgt repository (`src/lib/actions/patient-actions.ts`, schemas in
`src/lib/types` / `src/unnamed/part_001`).

The TypeScript source is shallowly embedded: the database client is replaced by
an explicit `Store` of rows, each Supabase query/insert by the corresponding
pure list operation, and write failures by boolean flags in an `Env` record
(the source ignores the error result of some inserts; the embedding mirrors
that by continuing after a failed cascaded write).  JavaScript numbers are
embedded as `Int` (all arithmetic involved is exact integer arithmetic), and a
JavaScript expression producing `NaN` is embedded as `Option.none`.
-/

/-! ## JavaScript string primitives

`String.split(':')`, `Number(...)`, `padStart(2,'0')` and `x || y` as used by
the source, re-implemented over `List Char` so that they are executable and
kernel-reducible.  `jsNumber?` covers the grammar actually reachable here
(optional sign followed by decimal digits, and the empty string, which
JavaScript's `Number` maps to 0); a non-numeric part yields `none` (= `NaN`).
-/

def jsDigit? (c : Char) : Option Nat :=
  if '0' ≤ c ∧ c ≤ '9' then some (c.toNat - 48) else none

def digitsVal? : List Char → Option Nat
  | [] => none
  | l => l.foldl (fun acc c => match acc, jsDigit? c with
      | some n, some d => some (n * 10 + d)
      | _, _ => none) (some 0)

def jsNumber? (s : String) : Option Int :=
  match s.toList with
  | [] => some 0
  | '-' :: rest => (digitsVal? rest).map (fun n => -(n : Int))
  | l => (digitsVal? l).map (fun n => (n : Int))

def splitOnCharAux (sep : Char) : List Char → List Char → List (List Char)
  | [], acc => [acc.reverse]
  | c :: rest, acc =>
    if c = sep then acc.reverse :: splitOnCharAux sep rest []
    else splitOnCharAux sep rest (c :: acc)

def jsSplit (sep : Char) (s : String) : List String :=
  (splitOnCharAux sep s.toList []).map List.asString

def padStart2 (s : String) : String :=
  if s.length = 0 then "00" else if s.length = 1 then "0" ++ s else s

/-- JavaScript `s || d` for strings: the empty string is falsy. -/
def jsOr (s d : String) : String := if s = "" then d else s

/-! ## Time Codec (`minutesToTimeString` / `timeStringToMinutes`)

Source (patient-actions.ts):
```
function minutesToTimeString(minutes: number): string {
  const hours = Math.floor(minutes / 60)
  const mins = minutes % 60
  return `${hours.toString().padStart(2, '0')}:${mins.toString().padStart(2, '0')}:00`
}
function timeStringToMinutes(timeString: string): number {
  const [hours, minutes] = timeString.split(':').map(Number)
  return hours * 60 + minutes
}
```
`Math.floor(m / 60)` is floor division (`Int.fdiv`), JavaScript `%` is the
truncated remainder (`Int.tmod`).  A destructuring that leaves `minutes`
`undefined` (fewer than two `:`-separated parts) makes the sum `NaN`: `none`.
-/

def minutesToTimeString (minutes : Int) : String :=
  let hours := minutes.fdiv 60
  let mins := minutes.tmod 60
  padStart2 (toString hours) ++ ":" ++ padStart2 (toString mins) ++ ":00"

def timeStringToMinutes (timeString : String) : Option Int :=
  match (jsSplit ':' timeString).map jsNumber? with
  | some hours :: some minutes :: _ => some (hours * 60 + minutes)
  | _ => none

/-- The date part of JavaScript `Date.prototype.toISOString()` for a Unix
millisecond timestamp, i.e. `new Date(ms).toISOString().split('T')[0]`:
the proleptic-Gregorian UTC calendar date, rendered `YYYY-MM-DD`
(civil-from-days algorithm). -/
def civilFromDays (z : Int) : Int × Int × Int :=
  let era : Int := (z + 719468).fdiv 146097
  let doe : Int := (z + 719468) - era * 146097
  let yoe : Int := (doe - doe.fdiv 1460 + doe.fdiv 36524 - doe.fdiv 146096).fdiv 365
  let y : Int := yoe + era * 400
  let doy : Int := doe - (365 * yoe + yoe.fdiv 4 - yoe.fdiv 100)
  let mp : Int := (5 * doy + 2).fdiv 153
  let d : Int := doy - (153 * mp + 2).fdiv 5 + 1
  let m : Int := mp + (if mp < 10 then 3 else -9)
  (y + (if m ≤ 2 then 1 else 0), m, d)

def pad4 (s : String) : String :=
  if s.length = 1 then "000" ++ s
  else if s.length = 2 then "00" ++ s
  else if s.length = 3 then "0" ++ s
  else s

def toISODatePart (ms : Int) : String :=
  match civilFromDays (ms.fdiv 86400000) with
  | (y, m, d) => pad4 (toString y) ++ "-" ++ padStart2 (toString m) ++ "-" ++ padStart2 (toString d)

/-- Follows the spec's words: a valid same-day wall-clock time string —
`H:M` or `H:M:S` with numeric fields, hour in `[0,23]`, minute and second in
`[0,59]`. -/
def isWallClockTime (s : String) : Bool :=
  match (jsSplit ':' s).map (fun p => digitsVal? p.toList) with
  | [some h, some m] => decide (h < 24) && decide (m < 60)
  | [some h, some m, some sec] => decide (h < 24) && decide (m < 60) && decide (sec < 60)
  | _ => false

/-! ## Data model

Rows of the relational store touched by the booking workflow, with the columns
the embedded code reads or writes. -/

structure AppointmentRow where
  id : String
  clinic_id : String
  patient_id : String
  dentist_id : String
  appointment_date : String
  start_time : String
  end_time : String
  duration_minutes : Int
  appointment_type : String
  chief_complaint : Option String
  diagnosis : Option String
  notes : Option String
  status : String
  treatments_planned : List String
  estimated_cost : Int
  actual_cost : Option Int
  created_by : String
  updated_at : Option String
  deriving DecidableEq, Repr

structure StaffAssocRow where
  appointment_id : String
  staff_id : String
  role : String
  deriving DecidableEq, Repr

structure PrescriptionRow where
  clinic_id : String
  appointment_id : String
  patient_id : String
  prescribed_by_id : String
  medication_name : String
  instructions : String
  deriving DecidableEq, Repr

structure ActivityLogRow where
  clinic_id : String
  user_id : String
  action : String
  resource_type : String
  resource_id : String
  description : String
  deriving DecidableEq, Repr

structure PatientRow where
  id : String
  clinic_id : String
  first_name : String
  last_name : String
  deriving DecidableEq, Repr

structure UserRow where
  id : String
  first_name : String
  last_name : String
  deriving DecidableEq, Repr

structure Store where
  appointments : List AppointmentRow
  appointment_staff : List StaffAssocRow
  prescriptions : List PrescriptionRow
  activity_logs : List ActivityLogRow
  patients : List PatientRow
  users : List UserRow
  deriving DecidableEq, Repr

/-- `AppointmentConflict` interface of the source. -/
structure AppointmentConflict where
  appointmentId : String
  patientName : String
  startTime : String
  endTime : String
  dentistName : String
  deriving DecidableEq, Repr

/-- `AppointmentActionResult` of the source (`data`/`error`/`fieldErrors`/
`conflicts` are optional there; absent optional fields are embedded as
`none`/`[]`).  `fieldErrors` keeps the names of the fields that failed
validation. -/
structure ActionResult where
  success : Bool
  error : Option String
  fieldErrors : List String
  conflicts : List AppointmentConflict
  data : Option AppointmentRow
  deriving DecidableEq, Repr

/-- Environment of one invocation: the row id the database would assign to an
insert, the clock (`new Date().toISOString()`), and one flag per database
write that says whether that write fails.  The source checks the returned
error only for the primary appointment insert/update; cascaded writes keep
running, which the embedding mirrors by continuing after a failed one. -/
structure Env where
  newId : String
  nowISO : String
  failAppointmentInsert : Bool
  failAppointmentUpdate : Bool
  failStaffDelete : Bool
  failStaffInsert : Bool
  failPrescriptionInsert : Bool
  failActivityInsert : Bool
  failDentistUpdate : Bool
  deriving DecidableEq, Repr

/-! ## Conflict Checker (`checkAppointmentConflicts`)

The Supabase query
`.eq('clinic_id', clinicId).eq('appointment_date', date.toISOString().split('T')[0])
 .neq('status', 'cancelled').in('dentist_id', staffIds)` plus the optional
`.neq('id', excludeAppointmentId)`, then one overlap test per returned row.
The source takes a `Date` and serializes it inside the query; the embedding
takes the serialized date string (`toISODatePart` of the caller's timestamp)
directly, which is the same value. -/

def appointmentsQuery (store : Store) (clinicId : String) (staffIds : List String)
    (dateISO : String) (excludeAppointmentId : Option String) : List AppointmentRow :=
  store.appointments.filter fun a =>
    a.clinic_id == clinicId && a.appointment_date == dateISO
      && a.status != "cancelled" && staffIds.contains a.dentist_id
      && (match excludeAppointmentId with
          | some x => a.id != x
          | none => true)

/-- The per-row overlap test of the source, on the raw time strings.  All four
comparisons of a `NaN` operand are false in JavaScript, hence the `none`
catch-all. -/
def overlapCheck (startTime endTime : String) (existing : AppointmentRow) : Bool :=
  match timeStringToMinutes existing.start_time, timeStringToMinutes existing.end_time,
      timeStringToMinutes startTime, timeStringToMinutes endTime with
  | some existingStart, some existingEnd, some newStart, some newEnd =>
    (decide (newStart ≥ existingStart) && decide (newStart < existingEnd))
      || (decide (newEnd > existingStart) && decide (newEnd ≤ existingEnd))
      || (decide (newStart ≤ existingStart) && decide (newEnd ≥ existingEnd))
  | _, _, _, _ => false

/-- Names come from the joined `patients` row; the database enforces the
foreign key, so the fallback for a missing row is never exercised. -/
def patientDisplayName (store : Store) (pid : String) : String :=
  match store.patients.find? (fun p => p.id == pid) with
  | some p => p.first_name ++ " " ++ p.last_name
  | none => ""

def dentistDisplayName (store : Store) (did : String) : String :=
  match store.users.find? (fun u => u.id == did) with
  | some u => u.first_name ++ " " ++ u.last_name
  | none => ""

def mkConflict (store : Store) (existing : AppointmentRow) : AppointmentConflict :=
  { appointmentId := existing.id
    patientName := patientDisplayName store existing.patient_id
    startTime := existing.start_time
    endTime := existing.end_time
    dentistName := dentistDisplayName store existing.dentist_id }

def checkAppointmentConflicts (store : Store) (clinicId : String) (staffIds : List String)
    (dateISO : String) (startTime endTime : String)
    (excludeAppointmentId : Option String) : List AppointmentConflict :=
  (appointmentsQuery store clinicId staffIds dateISO excludeAppointmentId).filterMap
    fun existing =>
      if overlapCheck startTime endTime existing then some (mkConflict store existing)
      else none

/-! ## Input validation (`CreateAppointmentSchema` / `UpdateAppointmentSchema`)

The Zod schemas of `src/unnamed/part_001`: `AppointmentSchema` restricted by
`omit`/`partial`.  The input records model the parsed form data after Zod has
applied defaults (`staffIds` defaults to `[]`, `status` to `"scheduled"`,
`prescriptions` to `[]`), so every field the code reads is present.
Validation returns the names of the fields that fail their check (the keys of
`error.flatten().fieldErrors`); an empty list means `safeParse` succeeded.
`z.string().uuid()` is embedded as the 8-4-4-4-12 hexadecimal shape. -/

def isHexDigit (c : Char) : Bool :=
  ('0' ≤ c && c ≤ '9') || ('a' ≤ c && c ≤ 'f') || ('A' ≤ c && c ≤ 'F')

def isUuid (s : String) : Bool :=
  match jsSplit '-' s with
  | [a, b, c, d, e] =>
    a.length == 8 && b.length == 4 && c.length == 4 && d.length == 4 && e.length == 12
      && (a.toList ++ b.toList ++ c.toList ++ d.toList ++ e.toList).all isHexDigit
  | _ => false

def appointmentStatuses : List String :=
  ["scheduled", "confirmed", "in_progress", "completed", "cancelled", "no_show"]

/-- `CreateAppointmentFormData` (with the ambient `clinicId` and `createdBy`
merged in by `createAppointment` before parsing). -/
structure CreateAppointmentInput where
  patientId : String
  staffIds : List String
  treatmentId : Option String
  date : Int
  time : Int
  complaint : Option String
  diagnosis : Option String
  notes : Option String
  involvedTeeth : List Int
  units : Int
  finalPrice : Option Int
  paidAmount : Option Int
  isDone : Bool
  status : String
  timer : Option Int
  prescriptions : List (String × String)
  deriving DecidableEq, Repr

def checkField (name : String) (ok : Bool) : List String :=
  if ok then [] else [name]

def validateCreateAppointment (clinicId createdBy : String)
    (fd : CreateAppointmentInput) : List String :=
  checkField "clinicId" (isUuid clinicId)
    ++ checkField "patientId" (isUuid fd.patientId)
    ++ checkField "staffIds" (fd.staffIds.all isUuid)
    ++ checkField "treatmentId" (match fd.treatmentId with
        | some t => isUuid t
        | none => true)
    ++ checkField "date" (decide (0 < fd.date))
    ++ checkField "time" (decide (0 ≤ fd.time) && decide (fd.time ≤ 1439))
    ++ checkField "involvedTeeth" (fd.involvedTeeth.all fun t => decide (1 ≤ t) && decide (t ≤ 32))
    ++ checkField "units" (decide (0 < fd.units))
    ++ checkField "status" (appointmentStatuses.contains fd.status)
    ++ checkField "prescriptions" (fd.prescriptions.all fun p => isUuid p.1 && decide (p.2.length ≥ 1))
    ++ checkField "createdBy" (isUuid createdBy)

/-- `UpdateAppointmentFormData`: every field optional
(`AppointmentSchema.partial().omit({id, clinicId, createdAt, updatedAt})`). -/
structure UpdateAppointmentInput where
  patientId : Option String
  staffIds : Option (List String)
  treatmentId : Option String
  date : Option Int
  time : Option Int
  complaint : Option String
  diagnosis : Option String
  notes : Option String
  involvedTeeth : Option (List Int)
  units : Option Int
  finalPrice : Option Int
  paidAmount : Option Int
  isDone : Option Bool
  status : Option String
  timer : Option Int
  prescriptions : Option (List (String × String))
  createdBy : Option String
  deriving DecidableEq, Repr

def checkOpt (name : String) (v : Option α) (ok : α → Bool) : List String :=
  match v with
  | some x => if ok x then [] else [name]
  | none => []

def validateUpdateAppointment (fd : UpdateAppointmentInput) : List String :=
  checkOpt "patientId" fd.patientId isUuid
    ++ checkOpt "staffIds" fd.staffIds (fun l => l.all isUuid)
    ++ checkOpt "treatmentId" fd.treatmentId isUuid
    ++ checkOpt "date" fd.date (fun d => decide (0 < d))
    ++ checkOpt "time" fd.time (fun t => decide (0 ≤ t) && decide (t ≤ 1439))
    ++ checkOpt "involvedTeeth" fd.involvedTeeth
        (fun l => l.all fun t => decide (1 ≤ t) && decide (t ≤ 32))
    ++ checkOpt "units" fd.units (fun u => decide (0 < u))
    ++ checkOpt "status" fd.status appointmentStatuses.contains
    ++ checkOpt "prescriptions" fd.prescriptions
        (fun l => l.all fun p => isUuid p.1 && decide (p.2.length ≥ 1))
    ++ checkOpt "createdBy" fd.createdBy isUuid

/-! ## Booking Writer (`createAppointment`) -/

def validationFailure (fieldErrors : List String) : ActionResult :=
  { success := false, error := some "Validation failed", fieldErrors := fieldErrors
    conflicts := [], data := none }

def plainFailure (msg : String) : ActionResult :=
  { success := false, error := some msg, fieldErrors := [], conflicts := [], data := none }

def conflictFailure (conflicts : List AppointmentConflict) : ActionResult :=
  { success := false, error := some "Appointment conflicts detected", fieldErrors := []
    conflicts := conflicts, data := none }

def successResult (row : AppointmentRow) : ActionResult :=
  { success := true, error := none, fieldErrors := [], conflicts := [], data := some row }

def createAppointment (env : Env) (store : Store) (userId clinicId : String)
    (formData : CreateAppointmentInput) : ActionResult × Store :=
  let fieldErrors := validateCreateAppointment clinicId userId formData
  if fieldErrors ≠ [] then (validationFailure fieldErrors, store)
  else
    let appointmentDateISO := toISODatePart formData.date
    let startTime := minutesToTimeString formData.time
    let endTime := minutesToTimeString (formData.time + 60)
    let conflicts := checkAppointmentConflicts store clinicId formData.staffIds
        appointmentDateISO startTime endTime none
    if conflicts ≠ [] then (conflictFailure conflicts, store)
    else
      match store.patients.filter (fun p => p.id == formData.patientId && p.clinic_id == clinicId) with
      | [_patient] =>
        if env.failAppointmentInsert then (plainFailure "Failed to create appointment", store)
        else
          let appointment : AppointmentRow :=
            { id := env.newId
              clinic_id := clinicId
              patient_id := formData.patientId
              dentist_id := jsOr (formData.staffIds.headD "") userId
              appointment_date := appointmentDateISO
              start_time := startTime
              end_time := endTime
              duration_minutes := 60
              appointment_type := "consultation"
              chief_complaint := formData.complaint
              diagnosis := none
              notes := formData.notes
              status := formData.status
              treatments_planned := []
              estimated_cost := formData.finalPrice.getD 0
              actual_cost := none
              created_by := userId
              updated_at := none }
          let store1 := { store with appointments := store.appointments ++ [appointment] }
          let store2 :=
            if decide (formData.staffIds.length > 1) && !env.failStaffInsert then
              { store1 with appointment_staff := store1.appointment_staff
                  ++ (formData.staffIds.drop 1).map fun sid =>
                    { appointment_id := env.newId, staff_id := sid, role := "assistant" } }
            else store1
          let store3 :=
            if decide (formData.prescriptions.length > 0) && !env.failPrescriptionInsert then
              { store2 with prescriptions := store2.prescriptions
                  ++ formData.prescriptions.map fun pres =>
                    { clinic_id := clinicId
                      appointment_id := env.newId
                      patient_id := formData.patientId
                      prescribed_by_id := jsOr (formData.staffIds.headD "") userId
                      medication_name := pres.2
                      instructions := pres.2 } }
            else store2
          let store4 :=
            if !env.failActivityInsert then
              { store3 with activity_logs := store3.activity_logs
                  ++ [{ clinic_id := clinicId
                        user_id := userId
                        action := "create"
                        resource_type := "appointment"
                        resource_id := env.newId
                        description := "Created appointment for patient " ++ formData.patientId }] }
            else store3
          (successResult appointment, store4)
      | _ => (plainFailure "Patient not found or access denied", store)

/-! ## Booking Writer (`updateAppointment`)

Mirrors the source: validate, fetch the row by id and clinic, run the conflict
check only when `date` or `time` is being changed (excluding the appointment
itself), apply the update object (`updated_at` timestamp plus whichever fields
are present, `isDone` last, overriding `status`), write it back (the only
checked write), then cascade: replace the staff associations and the primary
dentist when `staffIds` is present, and append an activity-log entry.  The
source parses `existingAppointment.appointment_date` back through `new Date`
and re-serializes it, which is the identity on a stored `YYYY-MM-DD` string,
so the embedding reuses the stored string directly. -/

def applyUpdateObject (env : Env) (fd : UpdateAppointmentInput)
    (dateFields : Option (String × String × String)) (a : AppointmentRow) : AppointmentRow :=
  let a := { a with updated_at := some env.nowISO }
  let a := match dateFields with
    | some (d, s, e) => { a with appointment_date := d, start_time := s, end_time := e }
    | none => a
  let a := match fd.complaint with
    | some c => { a with chief_complaint := some c }
    | none => a
  let a := match fd.diagnosis with
    | some dg => { a with diagnosis := some dg }
    | none => a
  let a := match fd.notes with
    | some n => { a with notes := some n }
    | none => a
  let a := match fd.status with
    | some st => { a with status := st }
    | none => a
  let a := match fd.finalPrice with
    | some p => { a with actual_cost := some p }
    | none => a
  match fd.isDone with
  | some b => { a with status := if b then "completed" else "scheduled" }
  | none => a

def updateAppointment (env : Env) (store : Store) (userId clinicId appointmentId : String)
    (fd : UpdateAppointmentInput) : ActionResult × Store :=
  let fieldErrors := validateUpdateAppointment fd
  if fieldErrors ≠ [] then (validationFailure fieldErrors, store)
  else
    match store.appointments.filter (fun a => a.id == appointmentId && a.clinic_id == clinicId) with
    | [existingAppointment] =>
      let dateFields : Option (String × String × String) :=
        if fd.date.isSome || fd.time.isSome then
          some (match fd.date with
                | some d => toISODatePart d
                | none => existingAppointment.appointment_date,
              match fd.time with
                | some t => minutesToTimeString t
                | none => existingAppointment.start_time,
              match fd.time with
                | some t => minutesToTimeString (t + 60)
                | none => existingAppointment.end_time)
        else none
      let conflicts := match dateFields with
        | some (dISO, newStartTime, newEndTime) =>
          checkAppointmentConflicts store clinicId
            (fd.staffIds.getD [existingAppointment.dentist_id])
            dISO newStartTime newEndTime (some appointmentId)
        | none => []
      if conflicts ≠ [] then (conflictFailure conflicts, store)
      else if env.failAppointmentUpdate then (plainFailure "Failed to update appointment", store)
      else
        let updatedAppointment := applyUpdateObject env fd dateFields existingAppointment
        let store1 := { store with appointments := store.appointments.map fun a =>
            (if a.id == appointmentId && a.clinic_id == clinicId then
              applyUpdateObject env fd dateFields a
            else a) }
        let store2 := match fd.staffIds with
          | some staffIds =>
            let s := if !env.failStaffDelete then
                { store1 with appointment_staff :=
                    store1.appointment_staff.filter (fun r => r.appointment_id != appointmentId) }
              else store1
            let s := if decide (staffIds.length > 1) && !env.failStaffInsert then
                { s with appointment_staff := s.appointment_staff
                    ++ (staffIds.drop 1).map fun sid =>
                      { appointment_id := appointmentId, staff_id := sid, role := "assistant" } }
              else s
            match staffIds.head? with
            | some primary =>
              if !env.failDentistUpdate then
                { s with appointments :=
                    s.appointments.map (fun a =>
                      if a.id == appointmentId then { a with dentist_id := primary } else a) }
              else s
            | none => s
          | none => store1
        let store3 :=
          if !env.failActivityInsert then
            { store2 with activity_logs := store2.activity_logs
                ++ [{ clinic_id := clinicId
                      user_id := userId
                      action := "update"
                      resource_type := "appointment"
                      resource_id := appointmentId
                      description := "Updated appointment " ++ appointmentId }] }
          else store2
        (successResult updatedAppointment, store3)
    | _ => (plainFailure "Appointment not found or access denied", store)

/-! ## Spec-side definitions

`specConflictCandidates` renders the specification's words for the candidate
set of the Conflict Checker — "appointments of the clinic on the date whose
status is not cancelled, SHARING AT LEAST ONE STAFF IDENTIFIER with the
request, minus the excluded appointment" — where an appointment's staff
identifiers are its primary `dentist_id` together with the assistants recorded
in the `appointment_staff` join table.  It is compared against the query the
code actually issues (`appointmentsQuery`). -/

def specConflictCandidates (store : Store) (clinicId : String) (staffIds : List String)
    (dateISO : String) (excludeAppointmentId : Option String) : List AppointmentRow :=
  store.appointments.filter fun a =>
    a.clinic_id == clinicId && a.appointment_date == dateISO
      && a.status != "cancelled"
      && (staffIds.contains a.dentist_id
          || store.appointment_staff.any fun r =>
              r.appointment_id == a.id && staffIds.contains r.staff_id)
      && (match excludeAppointmentId with
          | some x => a.id != x
          | none => true)

/-- The appointment row the success branch of `createAppointment` inserts
(named copy of the record literal in `createAppointment`, for use in
theorem statements). -/
def insertedAppointmentRow (env : Env) (userId clinicId : String)
    (fd : CreateAppointmentInput) : AppointmentRow :=
  { id := env.newId
    clinic_id := clinicId
    patient_id := fd.patientId
    dentist_id := jsOr (fd.staffIds.headD "") userId
    appointment_date := toISODatePart fd.date
    start_time := minutesToTimeString fd.time
    end_time := minutesToTimeString (fd.time + 60)
    duration_minutes := 60
    appointment_type := "consultation"
    chief_complaint := fd.complaint
    diagnosis := none
    notes := fd.notes
    status := fd.status
    treatments_planned := []
    estimated_cost := fd.finalPrice.getD 0
    actual_cost := none
    created_by := userId
    updated_at := none }

/-! ## Concrete fixtures

A minimal clinic used by the concrete counterexamples and witnesses:
one clinic, one patient, two dentists, and (where needed) one booked
appointment 09:00–10:00 on 2024-06-01 (`sampleDate` is that day's Unix
millisecond timestamp). -/

def sampleClinic : String := "cccccccc-cccc-cccc-cccc-cccccccccccc"
def samplePatient : String := "aaaaaaaa-aaaa-aaaa-aaaa-aaaaaaaaaaaa"
def sampleUser : String := "bbbbbbbb-bbbb-bbbb-bbbb-bbbbbbbbbbbb"
def sampleDentist1 : String := "dddddddd-dddd-dddd-dddd-dddddddddddd"
def sampleDentist2 : String := "eeeeeeee-eeee-eeee-eeee-eeeeeeeeeeee"
def sampleDate : Int := 1717200000000

def sampleStore : Store :=
  { appointments := []
    appointment_staff := []
    prescriptions := []
    activity_logs := []
    patients := [{ id := samplePatient, clinic_id := sampleClinic
                   first_name := "Pat", last_name := "One" }]
    users := [{ id := sampleDentist1, first_name := "Doc", last_name := "One" },
              { id := sampleDentist2, first_name := "Doc", last_name := "Two" }] }

def sampleEnv : Env :=
  { newId := "ffffffff-0000-0000-0000-000000000001"
    nowISO := "2024-06-02T00:00:00.000Z"
    failAppointmentInsert := false
    failAppointmentUpdate := false
    failStaffDelete := false
    failStaffInsert := false
    failPrescriptionInsert := false
    failActivityInsert := false
    failDentistUpdate := false }

def sampleEnv2 : Env := { sampleEnv with newId := "ffffffff-0000-0000-0000-000000000002" }

def sampleCreate : CreateAppointmentInput :=
  { patientId := samplePatient
    staffIds := [sampleDentist1]
    treatmentId := none
    date := sampleDate
    time := 540
    complaint := none
    diagnosis := none
    notes := none
    involvedTeeth := []
    units := 1
    finalPrice := none
    paidAmount := none
    isDone := false
    status := "scheduled"
    timer := none
    prescriptions := [] }

/-- An existing booking: dentist 1, 2024-06-01, 09:00–10:00. -/
def bookedRow : AppointmentRow :=
  { id := "99999999-9999-9999-9999-999999999999"
    clinic_id := sampleClinic
    patient_id := samplePatient
    dentist_id := sampleDentist1
    appointment_date := "2024-06-01"
    start_time := "09:00:00"
    end_time := "10:00:00"
    duration_minutes := 60
    appointment_type := "consultation"
    chief_complaint := none
    diagnosis := none
    notes := none
    status := "scheduled"
    treatments_planned := []
    estimated_cost := 0
    actual_cost := none
    created_by := sampleUser
    updated_at := none }

def bookedStore : Store := { sampleStore with appointments := [bookedRow] }

/-- Store for the staff-sharing counterexample: the booked appointment's
primary dentist is dentist 1, and dentist 2 is attached to the same
appointment as an assistant through the `appointment_staff` join table. -/
def assistantStore : Store :=
  { bookedStore with
      appointment_staff := [{ appointment_id := bookedRow.id
                              staff_id := sampleDentist2
                              role := "assistant" }] }

/-- A second booking for dentist 2 in the same slot as `bookedRow`, used by
the update-path scenario. -/
def bookedRow2 : AppointmentRow :=
  { bookedRow with
      id := "88888888-8888-8888-8888-888888888888"
      dentist_id := sampleDentist2 }

def doubleBookedStore : Store := { sampleStore with appointments := [bookedRow, bookedRow2] }

/-- An update request that changes only the staff list (no date, no time). -/
def staffOnlyUpdate : UpdateAppointmentInput :=
  { patientId := none
    staffIds := some [sampleDentist2]
    treatmentId := none
    date := none
    time := none
    complaint := none
    diagnosis := none
    notes := none
    involvedTeeth := none
    units := none
    finalPrice := none
    paidAmount := none
    isDone := none
    status := none
    timer := none
    prescriptions := none
    createdBy := none }

/-- A booking request for 09:30–10:30, overlapping `bookedRow` by half an hour. -/
def overlapCreate : CreateAppointmentInput := { sampleCreate with time := 570 }

/-- A booking request for the last schema-valid start minute, 23:59. -/
def lateCreate : CreateAppointmentInput := { sampleCreate with time := 1439 }

/-- A booking request whose staff set is empty. -/
def emptyStaffCreate : CreateAppointmentInput := { sampleCreate with staffIds := [] }

/-- A booking request with a primary dentist and one assistant. -/
def twoStaffCreate : CreateAppointmentInput :=
  { sampleCreate with staffIds := [sampleDentist1, sampleDentist2] }

/-- An environment in which the cascaded staff-association insert fails. -/
def failStaffEnv : Env := { sampleEnv with failStaffInsert := true }

/-- An environment in which the primary appointment insert fails. -/
def failInsertEnv : Env := { sampleEnv with failAppointmentInsert := true }

/-! ## Codec tables

Exhaustive kernel evaluation of the codec over a whole day (stated as nested
bounded quantifiers over hour and minute so the decision procedure nests
shallowly), and over the out-of-range minutes `[1440, 1499]` reachable by
adding the default 60-minute duration to a schema-valid start minute. -/

set_option maxRecDepth 4000 in
theorem codec_day_table : ∀ h : Nat, h < 24 → ∀ r : Nat, r < 60 →
    timeStringToMinutes (minutesToTimeString ((60 * h + r : Nat) : Int))
        = some ((60 * h + r : Nat) : Int)
      ∧ isWallClockTime (minutesToTimeString ((60 * h + r : Nat) : Int)) = true := by
  decide

set_option maxRecDepth 4000 in
theorem codec_over_table : ∀ r : Nat, r < 60 →
    timeStringToMinutes (minutesToTimeString ((1440 + r : Nat) : Int))
        = some ((1440 + r : Nat) : Int)
      ∧ isWallClockTime (minutesToTimeString ((1440 + r : Nat) : Int)) = false := by
  decide

theorem codec_roundtrip (m : Int) (h0 : 0 ≤ m) (h1 : m ≤ 1439) :
    timeStringToMinutes (minutesToTimeString m) = some m
      ∧ isWallClockTime (minutesToTimeString m) = true := by
  have hn : m = ((m.toNat : Nat) : Int) := (Int.toNat_of_nonneg h0).symm
  have := codec_day_table (m.toNat / 60) (by omega) (m.toNat % 60) (Nat.mod_lt _ (by norm_num))
  rwa [Nat.div_add_mod m.toNat 60, ← hn] at this

theorem codec_overflow (m : Int) (h0 : 1440 ≤ m) (h1 : m ≤ 1499) :
    timeStringToMinutes (minutesToTimeString m) = some m
      ∧ isWallClockTime (minutesToTimeString m) = false := by
  have hn : m = ((m.toNat : Nat) : Int) := (Int.toNat_of_nonneg (by omega)).symm
  have := codec_over_table (m.toNat - 1440) (by omega)
  have he : 1440 + (m.toNat - 1440) = m.toNat := by omega
  rwa [he, ← hn] at this

/-! ## Helper lemmas -/

theorem checkField_eq_nil {name : String} {ok : Bool} :
    checkField name ok = [] ↔ ok = true := by
  cases ok <;> simp [checkField]

theorem mem_checkField {s name : String} {ok : Bool} :
    s ∈ checkField name ok ↔ s = name ∧ ok = false := by
  cases ok <;> simp [checkField]

theorem validateCreate_ok_facts {clinicId userId : String} {fd : CreateAppointmentInput}
    (h : validateCreateAppointment clinicId userId fd = []) :
    0 ≤ fd.time ∧ fd.time ≤ 1439 ∧ fd.staffIds.all isUuid = true := by
  simp only [validateCreateAppointment, List.append_eq_nil, checkField_eq_nil] at h
  have hstaff := h.1.1.1.1.1.1.1.1.2
  have htime := h.1.1.1.1.1.2
  simp only [Bool.and_eq_true, decide_eq_true_eq] at htime
  exact ⟨htime.1, htime.2, hstaff⟩

theorem isUuid_ne_empty {s : String} (h : isUuid s = true) : s ≠ "" := by
  rintro rfl
  simp [isUuid, jsSplit, splitOnCharAux, List.asString] at h

theorem createAppointment_cases (env : Env) (store : Store) (userId clinicId : String)
    (fd : CreateAppointmentInput) :
    ((createAppointment env store userId clinicId fd).1.success = false
      ∧ (createAppointment env store userId clinicId fd).1.data = none
      ∧ (createAppointment env store userId clinicId fd).2 = store)
    ∨ (validateCreateAppointment clinicId userId fd = []
      ∧ checkAppointmentConflicts store clinicId fd.staffIds (toISODatePart fd.date)
          (minutesToTimeString fd.time) (minutesToTimeString (fd.time + 60)) none = []
      ∧ env.failAppointmentInsert = false
      ∧ (createAppointment env store userId clinicId fd).1
          = successResult (insertedAppointmentRow env userId clinicId fd)
      ∧ (createAppointment env store userId clinicId fd).2.appointments
          = store.appointments ++ [insertedAppointmentRow env userId clinicId fd]) := by
  by_cases hv : validateCreateAppointment clinicId userId fd = []
  · by_cases hc : checkAppointmentConflicts store clinicId fd.staffIds (toISODatePart fd.date)
        (minutesToTimeString fd.time) (minutesToTimeString (fd.time + 60)) none = []
    · rcases hp : store.patients.filter
          (fun p => p.id == fd.patientId && p.clinic_id == clinicId) with _ | ⟨p, _ | ⟨q, t⟩⟩
      · left; simp [createAppointment, hv, hc, hp, plainFailure]
      · by_cases hf : env.failAppointmentInsert
        · left; simp [createAppointment, hv, hc, hp, hf, plainFailure]
        · right
          refine ⟨hv, hc, by simpa using hf, ?_, ?_⟩ <;>
            simp [createAppointment, hv, hc, hp, hf, successResult, insertedAppointmentRow,
              apply_ite Store.appointments]
      · left; simp [createAppointment, hv, hc, hp, plainFailure]
    · left; simp [createAppointment, hv, hc, conflictFailure]
  · left; simp [createAppointment, hv, validationFailure]

theorem mkConflict_mem {store : Store} {clinicId : String} {staffIds : List String}
    {dateISO startTime endTime : String} {ex : Option String} {e : AppointmentRow}
    (hq : e ∈ appointmentsQuery store clinicId staffIds dateISO ex)
    (ho : overlapCheck startTime endTime e = true) :
    mkConflict store e ∈ checkAppointmentConflicts store clinicId staffIds dateISO
      startTime endTime ex := by
  unfold checkAppointmentConflicts
  exact List.mem_filterMap.mpr ⟨e, hq, by simp [ho]⟩

/-- C1: for a candidate interval `[s1,e1)` and an existing queried appointment
with interval `[s2,e2)` (same clinic and date, staff filter, both intervals
non-degenerate), `checkAppointmentConflicts` reports a conflict for that
appointment iff `s1 < e2 ∧ s2 < e1`; in particular, against an existing
09:00–10:00 booking, a new 10:00–11:00 booking yields no conflict and a new
09:59–10:59 booking yields a conflict. -/
theorem C1_overlap_rule :
    (∀ (store : Store) (clinicId : String) (staffIds : List String) (dateISO : String)
        (startTime endTime : String) (ex : Option String) (e : AppointmentRow)
        (s1 e1 s2 e2 : Int),
        e ∈ appointmentsQuery store clinicId staffIds dateISO ex →
        timeStringToMinutes startTime = some s1 → timeStringToMinutes endTime = some e1 →
        timeStringToMinutes e.start_time = some s2 → timeStringToMinutes e.end_time = some e2 →
        s1 < e1 → s2 < e2 →
        ((∃ c ∈ checkAppointmentConflicts store clinicId staffIds dateISO startTime endTime ex,
            c.appointmentId = e.id ∧ c.startTime = e.start_time ∧ c.endTime = e.end_time)
          ↔ (s1 < e2 ∧ s2 < e1)))
    ∧ checkAppointmentConflicts bookedStore sampleClinic [sampleDentist1] "2024-06-01"
        "10:00:00" "11:00:00" none = []
    ∧ checkAppointmentConflicts bookedStore sampleClinic [sampleDentist1] "2024-06-01"
        "09:59:00" "10:59:00" none ≠ [] := by
  refine ⟨?_, by decide, by decide⟩
  intro store clinicId staffIds dateISO startTime endTime ex e s1 e1 s2 e2
    hq hps1 hpe1 hps2 hpe2 hlt1 hlt2
  constructor
  · rintro ⟨c, hcmem, hcid, hcst, hcet⟩
    obtain ⟨e2r, hq2, he2⟩ := List.mem_filterMap.mp hcmem
    by_cases ho : overlapCheck startTime endTime e2r = true
    · rw [if_pos ho] at he2
      obtain rfl : mkConflict store e2r = c := Option.some.inj he2
      have hsteq : e2r.start_time = e.start_time := hcst
      have heteq : e2r.end_time = e.end_time := hcet
      unfold overlapCheck at ho
      rw [hsteq, heteq, hps2, hpe2, hps1, hpe1] at ho
      simp only [Bool.or_eq_true, Bool.and_eq_true, decide_eq_true_eq] at ho
      omega
    · simp [ho] at he2
  · rintro ⟨hA, hB⟩
    have ho : overlapCheck startTime endTime e = true := by
      unfold overlapCheck
      rw [hps2, hpe2, hps1, hpe1]
      simp only [Bool.or_eq_true, Bool.and_eq_true, decide_eq_true_eq]
      omega
    exact ⟨mkConflict store e, mkConflict_mem hq ho, rfl, rfl, rfl⟩

theorem C1_witness :
    ∃ c ∈ checkAppointmentConflicts bookedStore sampleClinic [sampleDentist1] "2024-06-01"
        "09:59:00" "10:59:00" none,
      c.appointmentId = bookedRow.id ∧ c.startTime = bookedRow.start_time
        ∧ c.endTime = bookedRow.end_time :=
  (C1_overlap_rule.1 bookedStore sampleClinic [sampleDentist1] "2024-06-01"
      "09:59:00" "10:59:00" none bookedRow 599 659 540 600
      (by decide) (by decide) (by decide) (by decide) (by decide)
      (by decide) (by decide)).mpr (by decide)

/-- C2 counterexample: the spec-worded candidate set ("sharing at least one
staff identifier", assistants included) contains the booked appointment when
the request names its assistant, but the query the code issues matches on the
primary `dentist_id` only and returns nothing — so the overlapping request
09:30–10:30 for the assistant sails through with no conflict. -/
theorem C2_counterexample :
    specConflictCandidates assistantStore sampleClinic [sampleDentist2] "2024-06-01" none
        = [bookedRow]
      ∧ appointmentsQuery assistantStore sampleClinic [sampleDentist2] "2024-06-01" none = []
      ∧ checkAppointmentConflicts assistantStore sampleClinic [sampleDentist2] "2024-06-01"
          "09:30:00" "10:30:00" none = [] := by
  refine ⟨by decide, by decide, by decide⟩

/-- C2 (amended): the candidate set of `checkAppointmentConflicts` is exactly
the clinic's appointments on the date whose status is not `cancelled`, whose
PRIMARY staff (`dentist_id`) is among the requested `staffIds`, minus the
excluded appointment; assistant associations in `appointment_staff` are not
consulted. -/
theorem C2_candidate_set :
    ∀ (store : Store) (clinicId : String) (staffIds : List String) (dateISO : String)
      (ex : Option String) (a : AppointmentRow),
      a ∈ appointmentsQuery store clinicId staffIds dateISO ex
        ↔ (a ∈ store.appointments ∧ a.clinic_id = clinicId ∧ a.appointment_date = dateISO
            ∧ a.status ≠ "cancelled" ∧ a.dentist_id ∈ staffIds
            ∧ ∀ x, ex = some x → a.id ≠ x) := by
  intro store clinicId staffIds dateISO ex a
  unfold appointmentsQuery
  cases ex <;>
    simp [List.mem_filter, List.contains, List.elem_iff, and_assoc]

theorem C2_witness :
    bookedRow ∈ appointmentsQuery bookedStore sampleClinic [sampleDentist1] "2024-06-01" none :=
  (C2_candidate_set bookedStore sampleClinic [sampleDentist1] "2024-06-01" none bookedRow).mpr
    ⟨by decide, rfl, rfl, by decide, by decide, fun x hx => nomatch hx⟩

/-- C3 counterexample: "09:30:15" is a valid wall-clock time string within a
day, but the codec drops the seconds: `encode (decode "09:30:15")` is
"09:30:00", not "09:30:15" — the string-side round trip fails. -/
theorem C3_counterexample :
    isWallClockTime "09:30:15" = true
      ∧ timeStringToMinutes "09:30:15" = some 570
      ∧ minutesToTimeString 570 = "09:30:00"
      ∧ "09:30:00" ≠ "09:30:15" := by
  refine ⟨by decide, by decide, by decide, by decide⟩

/-- C3 (amended): `decode (encode m) = m` for every minute `m` in `[0,1439]`;
consequently `encode (decode t) = t` holds for the canonical strings
`t = encode m` (the `HH:MM:00` forms) — but not for other valid wall-clock
strings such as "09:30:15" (seconds are dropped) or "9:30" (unpadded). -/
theorem C3_roundtrip (m : Int) (h0 : 0 ≤ m) (h1 : m ≤ 1439) :
    timeStringToMinutes (minutesToTimeString m) = some m
      ∧ (timeStringToMinutes (minutesToTimeString m)).map minutesToTimeString
          = some (minutesToTimeString m) := by
  have h := (codec_roundtrip m h0 h1).1
  exact ⟨h, by rw [h]; rfl⟩

theorem C3_witness :
    (0 : Int) ≤ 570 ∧ (570 : Int) ≤ 1439
      ∧ (timeStringToMinutes (minutesToTimeString 570) = some 570
          ∧ (timeStringToMinutes (minutesToTimeString 570)).map minutesToTimeString
              = some (minutesToTimeString 570)) :=
  ⟨by decide, by decide, C3_roundtrip 570 (by decide) (by decide)⟩

/-- C8 counterexample: for the out-of-range argument 1440, `minutesToTimeString`
does not fail with any error — it returns the string "24:00:00", which is not
a valid wall-clock time. -/
theorem C8_counterexample :
    minutesToTimeString 1440 = "24:00:00" ∧ isWallClockTime "24:00:00" = false := by
  refine ⟨by decide, by decide⟩

/-- C8 (amended): `minutesToTimeString` performs no range check and never
fails; it is total.  Over the out-of-range inputs reachable in this workflow
(`[1440,1499]`, a schema-valid start minute plus the default 60-minute
duration) it returns a string that is not a valid wall-clock time (hour field
24) yet still parses back to the same out-of-range minute. -/
theorem C8_no_range_check (m : Int) (h0 : 1440 ≤ m) (h1 : m ≤ 1499) :
    timeStringToMinutes (minutesToTimeString m) = some m
      ∧ isWallClockTime (minutesToTimeString m) = false :=
  codec_overflow m h0 h1

theorem C8_witness :
    (1440 : Int) ≤ 1440 ∧ (1440 : Int) ≤ 1499
      ∧ (timeStringToMinutes (minutesToTimeString 1440) = some 1440
          ∧ isWallClockTime (minutesToTimeString 1440) = false) :=
  ⟨by decide, by decide, C8_no_range_check 1440 (by decide) (by decide)⟩

/-- C4: when the Conflict Checker returns a non-empty list for a (schema-valid)
booking request, `createAppointment` aborts returning exactly that conflict
list as the conflict error, and the store is completely unchanged — no
appointment row, no staff-association row, no prescription row and no
audit-log entry is written. -/
theorem C4_conflict_aborts (env : Env) (store : Store) (userId clinicId : String)
    (fd : CreateAppointmentInput)
    (hv : validateCreateAppointment clinicId userId fd = [])
    (hc : checkAppointmentConflicts store clinicId fd.staffIds (toISODatePart fd.date)
        (minutesToTimeString fd.time) (minutesToTimeString (fd.time + 60)) none ≠ []) :
    createAppointment env store userId clinicId fd
      = (conflictFailure (checkAppointmentConflicts store clinicId fd.staffIds
          (toISODatePart fd.date) (minutesToTimeString fd.time)
          (minutesToTimeString (fd.time + 60)) none), store) := by
  simp [createAppointment, hv, hc]

theorem C4_witness :
    createAppointment sampleEnv bookedStore sampleUser sampleClinic overlapCreate
      = (conflictFailure (checkAppointmentConflicts bookedStore sampleClinic
          overlapCreate.staffIds (toISODatePart overlapCreate.date)
          (minutesToTimeString overlapCreate.time)
          (minutesToTimeString (overlapCreate.time + 60)) none), bookedStore) :=
  C4_conflict_aborts sampleEnv bookedStore sampleUser sampleClinic overlapCreate
    (by decide) (by decide)

/-- C6 counterexample: the schema-valid start minute 1439 (23:59) is accepted
and persisted with end time "24:59:00", which is not a same-day wall-clock
time — the claimed temporal invariant fails for start minutes above 1379. -/
theorem C6_counterexample :
    (createAppointment sampleEnv sampleStore sampleUser sampleClinic lateCreate).1.success = true
      ∧ ((createAppointment sampleEnv sampleStore sampleUser sampleClinic lateCreate).2.appointments.map
          (fun a => (a.start_time, a.end_time))) = [("23:59:00", "24:59:00")]
      ∧ isWallClockTime "24:59:00" = false := by
  refine ⟨by decide, by decide, by decide⟩

/-- C6 (amended): every appointment persisted by `createAppointment` has
`start = time` and `end = time + 60` under the codec, hence start < end as
minutes; the start time is always a valid same-day wall-clock time, but the
end time is one exactly when the start minute is at most 1379 (i.e. the
appointment ends by 23:59) — for start minutes 1380–1439 the stored end time
has hour field 24 and is not a same-day wall-clock time. -/
theorem C6_temporal_invariant (env : Env) (store : Store) (userId clinicId : String)
    (fd : CreateAppointmentInput) (row : AppointmentRow)
    (h : (createAppointment env store userId clinicId fd).1.data = some row) :
    timeStringToMinutes row.start_time = some fd.time
      ∧ timeStringToMinutes row.end_time = some (fd.time + 60)
      ∧ fd.time < fd.time + 60
      ∧ isWallClockTime row.start_time = true
      ∧ (isWallClockTime row.end_time = true ↔ fd.time ≤ 1379) := by
  rcases createAppointment_cases env store userId clinicId fd with ⟨-, hd, -⟩ | ⟨hv, -, -, hres, -⟩
  · rw [hd] at h; cases h
  · rw [hres] at h
    simp only [successResult, Option.some.injEq] at h
    subst h
    obtain ⟨h0, h1, -⟩ := validateCreate_ok_facts hv
    have hstart := codec_roundtrip fd.time h0 h1
    simp only [insertedAppointmentRow]
    by_cases hle : fd.time ≤ 1379
    · have hend := codec_roundtrip (fd.time + 60) (by omega) (by omega)
      exact ⟨hstart.1, hend.1, by omega, hstart.2, by simp [hend.2, hle]⟩
    · have hend := codec_overflow (fd.time + 60) (by omega) (by omega)
      exact ⟨hstart.1, hend.1, by omega, hstart.2, by simp [hend.2, hle]⟩

theorem C6_witness :
    (createAppointment sampleEnv sampleStore sampleUser sampleClinic sampleCreate).1.data
        = some (insertedAppointmentRow sampleEnv sampleUser sampleClinic sampleCreate)
      ∧ (timeStringToMinutes (insertedAppointmentRow sampleEnv sampleUser sampleClinic
            sampleCreate).start_time = some sampleCreate.time
          ∧ timeStringToMinutes (insertedAppointmentRow sampleEnv sampleUser sampleClinic
              sampleCreate).end_time = some (sampleCreate.time + 60)
          ∧ sampleCreate.time < sampleCreate.time + 60
          ∧ isWallClockTime (insertedAppointmentRow sampleEnv sampleUser sampleClinic
              sampleCreate).start_time = true
          ∧ (isWallClockTime (insertedAppointmentRow sampleEnv sampleUser sampleClinic
              sampleCreate).end_time = true ↔ sampleCreate.time ≤ 1379)) :=
  ⟨by decide, C6_temporal_invariant sampleEnv sampleStore sampleUser sampleClinic sampleCreate
    (insertedAppointmentRow sampleEnv sampleUser sampleClinic sampleCreate) (by decide)⟩

/-- C7 counterexample: a booking request whose staff set is empty passes
schema validation (the schema gives `staffIds` a default of `[]` and no
non-empty constraint), and `createAppointment` proceeds to write the
appointment — it does not abort with a validation error. -/
theorem C7_counterexample :
    validateCreateAppointment sampleClinic sampleUser emptyStaffCreate = []
      ∧ (createAppointment sampleEnv sampleStore sampleUser sampleClinic
          emptyStaffCreate).1.success = true
      ∧ (createAppointment sampleEnv sampleStore sampleUser sampleClinic
          emptyStaffCreate).2.appointments.length = 1 := by
  refine ⟨by decide, by decide, by decide⟩

/-- C7 (amended): an empty staff set is accepted by the Validate step — it
never contributes a `staffIds` field error — and a booking persisted from an
empty-staff request records the creating user as its primary dentist
(`staffIds[0] || user.id`). -/
theorem C7_empty_staff_accepted :
    (∀ (clinicId userId : String) (fd : CreateAppointmentInput),
        fd.staffIds = [] → "staffIds" ∉ validateCreateAppointment clinicId userId fd)
      ∧ (∀ (env : Env) (store : Store) (userId clinicId : String)
          (fd : CreateAppointmentInput) (row : AppointmentRow), fd.staffIds = [] →
          (createAppointment env store userId clinicId fd).1.data = some row →
          row.dentist_id = userId) := by
  constructor
  · intro clinicId userId fd hempty
    simp [validateCreateAppointment, mem_checkField, hempty]
  · intro env store userId clinicId fd row hempty h
    rcases createAppointment_cases env store userId clinicId fd with ⟨-, hd, -⟩ | ⟨-, -, -, hres, -⟩
    · rw [hd] at h; cases h
    · rw [hres] at h
      simp only [successResult, Option.some.injEq] at h
      subst h
      simp [insertedAppointmentRow, hempty, jsOr]

theorem C7_witness :
    (insertedAppointmentRow sampleEnv sampleUser sampleClinic emptyStaffCreate).dentist_id
      = sampleUser :=
  C7_empty_staff_accepted.2 sampleEnv sampleStore sampleUser sampleClinic emptyStaffCreate
    (insertedAppointmentRow sampleEnv sampleUser sampleClinic emptyStaffCreate)
    (by decide) (by decide)

/-- C9 counterexample: with the cascaded staff-association insert failing,
`createAppointment` on a two-staff request still reports success while the
`appointment_staff` table stays empty — a partial write reported as success. -/
theorem C9_counterexample :
    (createAppointment failStaffEnv sampleStore sampleUser sampleClinic
        twoStaffCreate).1.success = true
      ∧ (createAppointment failStaffEnv sampleStore sampleUser sampleClinic
          twoStaffCreate).2.appointment_staff = [] := by
  refine ⟨by decide, by decide⟩

/-- C9 (amended): a failure of the PRIMARY appointment insert is surfaced —
the result is a failure and nothing at all is written; but failures of the
cascaded staff-association, prescription and activity-log writes are ignored:
the reported success value is unchanged when all three cascaded writes fail. -/
theorem C9_write_failures :
    (∀ (env : Env) (store : Store) (userId clinicId : String) (fd : CreateAppointmentInput),
        env.failAppointmentInsert = true →
        (createAppointment env store userId clinicId fd).1.success = false
          ∧ (createAppointment env store userId clinicId fd).2 = store)
      ∧ (∀ (env : Env) (store : Store) (userId clinicId : String) (fd : CreateAppointmentInput),
          (createAppointment
              { env with
                  failStaffInsert := true
                  failPrescriptionInsert := true
                  failActivityInsert := true } store userId clinicId fd).1.success
            = (createAppointment env store userId clinicId fd).1.success) := by
  constructor
  · intro env store userId clinicId fd hf
    rcases createAppointment_cases env store userId clinicId fd with ⟨hs, -, h2⟩ | ⟨-, -, hff, -, -⟩
    · exact ⟨hs, h2⟩
    · rw [hf] at hff; cases hff
  · intro env store userId clinicId fd
    by_cases hv : validateCreateAppointment clinicId userId fd = []
    · by_cases hc : checkAppointmentConflicts store clinicId fd.staffIds (toISODatePart fd.date)
          (minutesToTimeString fd.time) (minutesToTimeString (fd.time + 60)) none = []
      · rcases hp : store.patients.filter
            (fun p => p.id == fd.patientId && p.clinic_id == clinicId) with _ | ⟨p, _ | ⟨q, t⟩⟩ <;>
          by_cases hf : env.failAppointmentInsert <;>
            simp [createAppointment, hv, hc, hp, hf, successResult, plainFailure]
      · simp [createAppointment, hv, hc]
    · simp [createAppointment, hv]

theorem C9_witness :
    (createAppointment failInsertEnv sampleStore sampleUser sampleClinic
        sampleCreate).1.success = false
      ∧ (createAppointment failInsertEnv sampleStore sampleUser sampleClinic
          sampleCreate).2 = sampleStore :=
  C9_write_failures.1 failInsertEnv sampleStore sampleUser sampleClinic sampleCreate (by decide)

/-- C5 counterexample: a booking request with an empty staff set succeeds, and
submitting the identical request a second time against the resulting store
succeeds AGAIN — the duplicate is written (two appointment rows), because the
conflict query `in('dentist_id', [])` matches nothing. -/
theorem C5_counterexample :
    (createAppointment sampleEnv sampleStore sampleUser sampleClinic
        emptyStaffCreate).1.success = true
      ∧ (createAppointment sampleEnv2 (createAppointment sampleEnv sampleStore sampleUser
          sampleClinic emptyStaffCreate).2 sampleUser sampleClinic
            emptyStaffCreate).1.success = true
      ∧ (createAppointment sampleEnv2 (createAppointment sampleEnv sampleStore sampleUser
          sampleClinic emptyStaffCreate).2 sampleUser sampleClinic
            emptyStaffCreate).2.appointments.length = 2 := by
  refine ⟨by decide, by decide, by decide⟩

/-- C5 (amended): for a successful booking request whose staff set is
non-empty and whose status is not `cancelled`, resubmitting the identical
request against the resulting store is rejected as a conflict whose conflict
list references the appointment created by the first submission, and nothing
further is written.  (An empty staff set or a `cancelled` status evades the
conflict query — see the counterexample.) -/
theorem C5_resubmission_conflict (env env2 : Env) (store : Store) (userId clinicId : String)
    (fd : CreateAppointmentInput)
    (hstaff : fd.staffIds ≠ []) (hstatus : fd.status ≠ "cancelled")
    (hsucc : (createAppointment env store userId clinicId fd).1.success = true) :
    (createAppointment env2 (createAppointment env store userId clinicId fd).2
        userId clinicId fd).1.success = false
      ∧ (createAppointment env2 (createAppointment env store userId clinicId fd).2
          userId clinicId fd).2 = (createAppointment env store userId clinicId fd).2
      ∧ ∃ c ∈ (createAppointment env2 (createAppointment env store userId clinicId fd).2
          userId clinicId fd).1.conflicts, c.appointmentId = env.newId := by
  rcases createAppointment_cases env store userId clinicId fd with ⟨hfalse, -, -⟩
    | ⟨hv, -, -, -, happs⟩
  · rw [hfalse] at hsucc; cases hsucc
  · obtain ⟨h0, h1, hall⟩ := validateCreate_ok_facts hv
    obtain ⟨p, tl, hcons⟩ : ∃ p t, fd.staffIds = p :: t := by
      cases h : fd.staffIds with
      | nil => exact absurd h hstaff
      | cons p t => exact ⟨p, t, rfl⟩
    have hdu : isUuid p = true :=
      List.all_eq_true.mp hall p (by rw [hcons]; exact List.mem_cons_self p tl)
    have hdne : p ≠ "" := isUuid_ne_empty hdu
    set store2 := (createAppointment env store userId clinicId fd).2 with hstore2
    have hdent : (insertedAppointmentRow env userId clinicId fd).dentist_id = p := by
      simp [insertedAppointmentRow, hcons, jsOr, hdne]
    have hq : insertedAppointmentRow env userId clinicId fd
        ∈ appointmentsQuery store2 clinicId fd.staffIds (toISODatePart fd.date) none := by
      unfold appointmentsQuery
      rw [happs]
      refine List.mem_filter.mpr ⟨List.mem_append_right _ (by simp), ?_⟩
      simp [insertedAppointmentRow, hcons, jsOr, hdne, List.contains, List.elem_iff, hstatus]
    have hst0 : timeStringToMinutes (minutesToTimeString fd.time) = some fd.time :=
      (codec_roundtrip _ h0 h1).1
    have hend0 : timeStringToMinutes (minutesToTimeString (fd.time + 60))
        = some (fd.time + 60) := by
      by_cases hle : fd.time ≤ 1379
      · exact (codec_roundtrip _ (by omega) (by omega)).1
      · exact (codec_overflow _ (by omega) (by omega)).1
    have ho : overlapCheck (minutesToTimeString fd.time) (minutesToTimeString (fd.time + 60))
        (insertedAppointmentRow env userId clinicId fd) = true := by
      unfold overlapCheck
      have hrs : (insertedAppointmentRow env userId clinicId fd).start_time
          = minutesToTimeString fd.time := rfl
      have hre : (insertedAppointmentRow env userId clinicId fd).end_time
          = minutesToTimeString (fd.time + 60) := rfl
      rw [hrs, hre, hst0, hend0]
      simp only [Bool.or_eq_true, Bool.and_eq_true, decide_eq_true_eq]
      omega
    have hmem := mkConflict_mem hq ho
    have hcne : checkAppointmentConflicts store2 clinicId fd.staffIds (toISODatePart fd.date)
        (minutesToTimeString fd.time) (minutesToTimeString (fd.time + 60)) none ≠ [] :=
      List.ne_nil_of_mem hmem
    have hres2 : createAppointment env2 store2 userId clinicId fd
        = (conflictFailure (checkAppointmentConflicts store2 clinicId fd.staffIds
            (toISODatePart fd.date) (minutesToTimeString fd.time)
            (minutesToTimeString (fd.time + 60)) none), store2) := by
      simp [createAppointment, hv, hcne]
    rw [hres2]
    refine ⟨rfl, rfl, ?_⟩
    refine ⟨mkConflict store2 (insertedAppointmentRow env userId clinicId fd), hmem, ?_⟩
    show (insertedAppointmentRow env userId clinicId fd).id = env.newId
    rfl

theorem C5_witness :
    sampleCreate.staffIds ≠ [] ∧ sampleCreate.status ≠ "cancelled"
      ∧ (createAppointment sampleEnv sampleStore sampleUser sampleClinic
          sampleCreate).1.success = true
      ∧ ((createAppointment sampleEnv2 (createAppointment sampleEnv sampleStore sampleUser
            sampleClinic sampleCreate).2 sampleUser sampleClinic sampleCreate).1.success = false
          ∧ (createAppointment sampleEnv2 (createAppointment sampleEnv sampleStore sampleUser
              sampleClinic sampleCreate).2 sampleUser sampleClinic sampleCreate).2
            = (createAppointment sampleEnv sampleStore sampleUser sampleClinic sampleCreate).2
          ∧ ∃ c ∈ (createAppointment sampleEnv2 (createAppointment sampleEnv sampleStore
              sampleUser sampleClinic sampleCreate).2 sampleUser sampleClinic
                sampleCreate).1.conflicts, c.appointmentId = sampleEnv.newId) :=
  ⟨by decide, by decide, by decide,
    C5_resubmission_conflict sampleEnv sampleEnv2 sampleStore sampleUser sampleClinic
      sampleCreate (by decide) (by decide) (by decide)⟩

/-- C10: when neither `date` nor `time` is present in an update request,
`updateAppointment` performs no conflict check at all — for EVERY store
(including one where the new primary clinician already has an overlapping
non-cancelled appointment in the same slot) a staff-only reassignment
succeeds with an empty conflict list, and every row with the target id ends
up assigned to the new primary dentist. -/
theorem C10_staff_only_update_skips_conflicts (env : Env) (store : Store)
    (userId clinicId appointmentId : String) (fd : UpdateAppointmentInput)
    (a : AppointmentRow) (l : List String)
    (hdate : fd.date = none) (htime : fd.time = none)
    (hv : validateUpdateAppointment fd = [])
    (hp : store.appointments.filter
        (fun x => x.id == appointmentId && x.clinic_id == clinicId) = [a])
    (hfail : env.failAppointmentUpdate = false)
    (hstaff : fd.staffIds = some l) (hl : l ≠ [])
    (hfd : env.failDentistUpdate = false) :
    (updateAppointment env store userId clinicId appointmentId fd).1.success = true
      ∧ (updateAppointment env store userId clinicId appointmentId fd).1.conflicts = []
      ∧ ∀ b ∈ (updateAppointment env store userId clinicId appointmentId fd).2.appointments,
          b.id = appointmentId → b.dentist_id = l.headD "" := by
  obtain ⟨p, tl, rfl⟩ : ∃ p t, l = p :: t := by
    cases l with
    | nil => exact absurd rfl hl
    | cons p t => exact ⟨p, t, rfl⟩
  refine ⟨?_, ?_, ?_⟩
  · simp [updateAppointment, hv, hp, hdate, htime, hfail, successResult]
  · simp [updateAppointment, hv, hp, hdate, htime, hfail, successResult]
  · have happ2 : (updateAppointment env store userId clinicId appointmentId fd).2.appointments
        = (store.appointments.map (fun x => if x.id == appointmentId && x.clinic_id == clinicId
            then applyUpdateObject env fd none x else x)).map
          (fun y => if y.id == appointmentId then { y with dentist_id := p } else y) := by
      simp [updateAppointment, hv, hp, hdate, htime, hfail, hstaff, hfd,
        apply_ite Store.appointments]
    intro b hb hbid
    rw [happ2] at hb
    obtain ⟨y, hy, rfl⟩ := List.mem_map.mp hb
    by_cases hyid : (y.id == appointmentId) = true
    · simp [hyid]
    · simp only [if_neg hyid] at hbid
      exact absurd (beq_iff_eq.mpr hbid) hyid

theorem C10_witness :
    (updateAppointment sampleEnv doubleBookedStore sampleUser sampleClinic bookedRow.id
        staffOnlyUpdate).1.success = true
      ∧ (updateAppointment sampleEnv doubleBookedStore sampleUser sampleClinic bookedRow.id
          staffOnlyUpdate).1.conflicts = []
      ∧ ∀ b ∈ (updateAppointment sampleEnv doubleBookedStore sampleUser sampleClinic
          bookedRow.id staffOnlyUpdate).2.appointments,
          b.id = bookedRow.id → b.dentist_id = [sampleDentist2].headD "" :=
  C10_staff_only_update_skips_conflicts sampleEnv doubleBookedStore sampleUser sampleClinic
    bookedRow.id staffOnlyUpdate bookedRow [sampleDentist2] rfl rfl (by decide) (by decide)
    rfl rfl (by decide) rfl
